import Mathlib

/-!
Verification of the client-side persistent-session transport layer of the
opcode repository: the WebSocket session manager (`wsSessionManager.ts`),
the streaming command dispatcher (`handleStreamingCommand` in the api
adapter), and the `NetworkStatusManager`.

The embedding is shallow: each JavaScript function is translated into a
pure Lean function over an explicit state record; event-loop callbacks
become step functions on that state, and the externally visible effects of
a step (settling the dispatch promise, transmitting a frame, invoking
`setStatus`) are returned as data alongside the new state.
-/

/-- Network connection status, from `type NetworkStatus` in the api adapter. -/
inductive NetworkStatus
  | disconnected
  | connecting
  | connected
  | error
deriving DecidableEq

/-- State of `NetworkStatusManager`: the current status, the subscriber set
(`listeners : Set<NetworkStatusCallback>`, insertion ordered and without
duplicates, modelled as a list of subscriber ids), and the bounded status
history of (status, timestamp) pairs. -/
structure NSMState where
  currentStatus : NetworkStatus
  listeners : List Nat
  statusHistory : List (NetworkStatus × Nat)
deriving DecidableEq

/-- The capacity `private maxHistoryLength = 50`. -/
def maxHistoryLength : Nat := 50

/-- Source `addToHistory`: push `{status, timestamp}`; if the length exceeds
`maxHistoryLength`, keep `slice(-maxHistoryLength)`, the last 50 entries. -/
def addToHistory (status : NetworkStatus) (now : Nat)
    (h : List (NetworkStatus × Nat)) : List (NetworkStatus × Nat) :=
  let h2 := h ++ [(status, now)]
  if h2.length > maxHistoryLength then h2.drop (h2.length - maxHistoryLength) else h2

/-- Source `setStatus`: return unchanged if the new status equals the current one;
otherwise update the current status, record the change in the history, and
invoke every subscriber callback with the new status (each callback is
individually wrapped in try/catch in the source). The second component is
the list of (subscriber, status) notifications delivered. -/
def setStatus (now : Nat) (status : NetworkStatus) (s : NSMState) :
    NSMState × List (Nat × NetworkStatus) :=
  if s.currentStatus = status then (s, [])
  else
    ({ currentStatus := status
       listeners := s.listeners
       statusHistory := addToHistory status now s.statusHistory },
     s.listeners.map (fun l => (l, status)))

/-- A sequence of `setStatus` calls, each with its `Date.now()` timestamp. -/
def runSetStatus (ops : List (Nat × NetworkStatus)) (s : NSMState) : NSMState :=
  ops.foldl (fun st op => (setStatus op.1 op.2 st).1) s

/-- The manager's initial state: `currentStatus = 'disconnected'`, no
subscribers, empty history. -/
def initNSM : NSMState :=
  { currentStatus := NetworkStatus.disconnected
    listeners := []
    statusHistory := [] }

/-! ### Heap model of `getHistory`

`getHistory` returns `[...this.statusHistory]`. To state that the returned
array is a fresh copy (mutating it does not affect the manager), arrays are
modelled as references into a store; `statusHistory` is the reference held
by the manager, and allocation hands out `nextRef` and bumps it. -/

/-- One (status, timestamp) history entry. -/
abbrev HistEntry := NetworkStatus × Nat

/-- The `NetworkStatusManager` with its history array held by reference in a
store of arrays, so that aliasing between the internal array and values
returned to callers is expressible. -/
structure NSMHeapState where
  currentStatus : NetworkStatus
  listeners : List Nat
  historyRef : Nat
  nextRef : Nat
  store : Nat → List HistEntry

/-- Element-by-element copy performed by the array spread `[...a]`. -/
def copyArray : List HistEntry → List HistEntry
  | [] => []
  | e :: rest => e :: copyArray rest

/-- Source `getHistory`: allocate a fresh array holding a copy of the entries of
the internal history array, and return (a reference to) it. -/
def getHistory (s : NSMHeapState) : Nat × NSMHeapState :=
  (s.nextRef,
   { s with
     nextRef := s.nextRef + 1
     store := fun r => if r = s.nextRef then copyArray (s.store s.historyRef) else s.store r })

/-- A caller mutating the array it got back: overwrite the contents of the
array at reference `r`. -/
def writeArray (r : Nat) (contents : List HistEntry) (s : NSMHeapState) : NSMHeapState :=
  { s with store := fun q => if q = r then contents else s.store q }

/-! ### WebSocket session manager (`wsSessionManager.ts`) -/

/-- The `WebSocket.readyState` values. -/
inductive ReadyState
  | connecting
  | opened
  | closing
  | closed
deriving DecidableEq

/-- Source `interface WSSession`: session id, the underlying socket's state, the
registered message handlers (`Set<MessageHandler>`, insertion ordered and
duplicate-free, modelled as a list of handler ids), and the two flags. -/
structure WSSession where
  id : String
  wsState : ReadyState
  handlers : List Nat
  isConnected : Bool
  isStale : Bool
deriving DecidableEq

/-- The global `WsSessionState`: the per-tab session map and the per-tab
reconnect-attempt counters (both `Map`s keyed by tab id). -/
structure WsGlobalState where
  sessions : String → Option WSSession
  reconnectAttempts : String → Option Nat

/-- The `Map.set` operation on a map modelled as a function. -/
def updateMap {α : Type} (m : String → Option α) (k : String) (v : α) :
    String → Option α :=
  fun q => if q = k then some v else m q

/-- Source `private createSession(tabId, sessionId?)`: open a fresh socket
(readyState `CONNECTING`) with `wsSessionId = sessionId || tabId`, an empty
handler set, `isConnected = false`, `isStale = false`. -/
def createSession (tabId : String) (sessionId : Option String) : WSSession :=
  { id := sessionId.getD tabId
    wsState := ReadyState.connecting
    handlers := []
    isConnected := false
    isStale := false }

/-- Source `getOrCreateSession(tabId, sessionId?)`: reuse the stored session unless
none exists, it is stale, or its socket is `CLOSED`; when a new session is
needed, the old session's handlers are transferred to the new one (the
source collects `Array.from(session.handlers)` and re-adds them in order). -/
def getOrCreateSession (g : WsGlobalState) (tabId : String) (sessionId : Option String) :
    WSSession × WsGlobalState :=
  match g.sessions tabId with
  | none =>
      let s := createSession tabId sessionId
      (s, { g with sessions := updateMap g.sessions tabId s })
  | some old =>
      if old.isStale ∨ old.wsState = ReadyState.closed then
        let s0 := createSession tabId sessionId
        let s := { s0 with handlers := old.handlers }
        (s, { g with sessions := updateMap g.sessions tabId s })
      else (old, g)

/-- The loop `handlers.forEach(handler => handler(message))`: invoke the handlers in
registration order; a handler that throws is invoked (it ran) but aborts the
`forEach`, so the handlers after it are not invoked on this message.
`throws h` says whether handler `h` throws on the delivered message. The
result is the list of handlers invoked, in order. -/
def forEachHandlers (throws : Nat → Bool) : List Nat → List Nat
  | [] => []
  | h :: rest => if throws h then [h] else h :: forEachHandlers throws rest

/-- Number of handlers the `forEach` reaches: everything up to and including
the first handler that throws. -/
def invokedCount (throws : Nat → Bool) : List Nat → Nat
  | [] => 0
  | h :: rest => if throws h then 1 else invokedCount throws rest + 1

/-- Outcome of the socket `message` event listener: the session afterwards,
the handlers that were invoked, and whether an exception escaped the
listener (crashing frame routing). -/
structure MessageOutcome where
  session : WSSession
  invoked : List Nat
  crashed : Bool
deriving DecidableEq

/-- The `message` event listener of `createSession`:
`try { const message = JSON.parse(event.data); session.handlers.forEach(h => h(message)); } catch (e) { log }`.
`parsed` is `none` when `JSON.parse` throws (the frame is logged and
dropped). A handler exception aborts the `forEach` but is caught by the
surrounding try/catch, so it never escapes; the listener touches no session
field. -/
def onMessageEvent (sess : WSSession) (parsed : Option Unit) (throws : Nat → Bool) :
    MessageOutcome :=
  match parsed with
  | none => { session := sess, invoked := [], crashed := false }
  | some _ =>
      { session := sess
        invoked := forEachHandlers throws sess.handlers
        crashed := false }

/-- The cap `MAX_RECONNECT_ATTEMPTS = 3`. -/
def MAX_RECONNECT_ATTEMPTS : Nat := 3

/-- The base delay `RECONNECT_DELAY = 1000` (milliseconds). -/
def RECONNECT_DELAY : Nat := 1000

/-- Source `private attemptReconnect(tabId, sessionId?)`: bump the per-tab attempt
counter; if it exceeds `MAX_RECONNECT_ATTEMPTS`, give up with nothing
scheduled; otherwise store the counter and schedule a reconnect after
`RECONNECT_DELAY * attempts` ms. The second component is the scheduled
delay, `none` when nothing was scheduled. -/
def attemptReconnect (g : WsGlobalState) (tabId : String) : WsGlobalState × Option Nat :=
  let attempts := (g.reconnectAttempts tabId).getD 0 + 1
  if attempts > MAX_RECONNECT_ATTEMPTS then (g, none)
  else
    ({ g with reconnectAttempts := updateMap g.reconnectAttempts tabId attempts },
     some (RECONNECT_DELAY * attempts))

/-- The body of the `setTimeout` scheduled by `attemptReconnect`:
`const session = this.createSession(tabId, sessionId); sessions.set(tabId, session);` —
a brand-new session (with an empty handler set) replaces the map entry. -/
def reconnectFire (g : WsGlobalState) (tabId : String) (sessionId : Option String) :
    WsGlobalState :=
  { g with sessions := updateMap g.sessions tabId (createSession tabId sessionId) }

/-- Effect of the `close` event listener on the captured session object:
`isConnected = false`, `isStale = true` (unconditionally, for every close
code). -/
def onCloseSession (sess : WSSession) : WSSession :=
  { sess with isConnected := false, isStale := true }

/-- Registry-side effect of the `close` event listener: reconnect exactly
when the close code is neither 1000 nor 1001. Returns the new global state
and the scheduled reconnect delay, if any. -/
def onCloseEvent (g : WsGlobalState) (tabId : String) (code : Nat) :
    WsGlobalState × Option Nat :=
  if code ≠ 1000 ∧ code ≠ 1001 then attemptReconnect g tabId
  else (g, none)

/-! ### Command dispatcher (`handleStreamingCommand` in the api adapter)

One `dispatch` call sets up: the `isResolved`, `messageSent` and
`messageSuccessfullySent` flags, a 5-second send timeout, a registered
message handler, and `open`/`error`/`close` listeners on the socket. Each
asynchronous callback is a step function `DispatchState → DispatchState ×
effects`; a whole execution is a list of `DispatchEvent`s folded over the
initial state. Effects are reported as data: whether the promise was
settled (and how), how many request frames were transmitted, and the
arguments of the `networkStatusManager.setStatus` calls made, in order. -/

/-- Inbound server frame as discriminated by the registered message handler:
`output` (with whether its string `content` parses as JSON), `completion`
(with `status === 'success'` and the optional `error` field), `error` (with
the optional `message` field), or any other `type`. -/
inductive ServerFrame
  | output (parseOk : Bool)
  | completion (success : Bool) (err : Option String)
  | error (msg : Option String)
  | other
deriving DecidableEq

/-- The mutable flags of one `handleStreamingCommand` call: `isResolved`,
`messageSuccessfullySent`, `messageSent`, whether the registered message
handler is still registered (`unregister()` flips it off), and whether the
5-second `sendTimeout` is still armed (`clearTimeout` disarms it). -/
structure DispatchState where
  isResolved : Bool
  messageSuccessfullySent : Bool
  messageSent : Bool
  registered : Bool
  timeoutArmed : Bool
deriving DecidableEq

/-- How the dispatch promise was settled. The rejection constructors carry
what the corresponding `Error` message carries in the source. -/
inductive Settle
  | resolved
  | rejectedTimeout (ready : ReadyState)
  | rejectedConnFailed (ready : ReadyState)
  | rejectedWsError
  | rejectedExecution (msg : Option String)
  | rejectedError (msg : Option String)
deriving DecidableEq

/-- Externally visible effects of one callback invocation. -/
structure StepOut where
  settle : Option Settle
  sends : Nat
  statusCalls : List NetworkStatus
deriving DecidableEq

/-- Source `safeResolve`: run `clearTimeout(sendTimeout)`; if already resolved, do
nothing; else mark resolved, `setStatus('connected')`, resolve the
promise. -/
def safeResolve (ds : DispatchState) : DispatchState × Option Settle × List NetworkStatus :=
  let ds1 := { ds with timeoutArmed := false }
  if ds1.isResolved then (ds1, none, [])
  else ({ ds1 with isResolved := true }, some Settle.resolved, [NetworkStatus.connected])

/-- Source `safeReject`: run `clearTimeout(sendTimeout)`; if already resolved, do
nothing; else mark resolved, `setStatus('error')`, reject the promise. -/
def safeReject (r : Settle) (ds : DispatchState) :
    DispatchState × Option Settle × List NetworkStatus :=
  let ds1 := { ds with timeoutArmed := false }
  if ds1.isResolved then (ds1, none, [])
  else ({ ds1 with isResolved := true }, some r, [NetworkStatus.error])

/-- The message handler registered with `wsManager.registerHandler`:
`setStatus('connected')` first, for every delivered frame; then, by frame
kind: `output` dispatches a DOM event (no dispatch-state change);
`completion` unregisters and `safeResolve`s on success or `safeReject`s
with the carried error on failure; `error` unregisters and `safeReject`s
with the carried message; any other kind is ignored. -/
def messageHandler (f : ServerFrame) (ds : DispatchState) :
    DispatchState × Option Settle × List NetworkStatus :=
  match f with
  | ServerFrame.output _ => (ds, none, [NetworkStatus.connected])
  | ServerFrame.completion success err =>
      let ds1 := { ds with registered := false }
      if success then
        let r := safeResolve ds1
        (r.1, r.2.1, NetworkStatus.connected :: r.2.2)
      else
        let r := safeReject (Settle.rejectedExecution err) ds1
        (r.1, r.2.1, NetworkStatus.connected :: r.2.2)
  | ServerFrame.error msg =>
      let ds1 := { ds with registered := false }
      let r := safeReject (Settle.rejectedError msg) ds1
      (r.1, r.2.1, NetworkStatus.connected :: r.2.2)
  | ServerFrame.other => (ds, none, [NetworkStatus.connected])

/-- The `sendTimeout` callback (armed for 5000 ms at call setup): if not yet
resolved and the message was already sent, ignore the timeout; otherwise
mark resolved, `setStatus('error')`, `unregister()`, and reject with a
timeout error describing the socket's `readyState`. -/
def sendTimeoutFire (ready : ReadyState) (ds : DispatchState) :
    DispatchState × Option Settle × List NetworkStatus :=
  if ds.isResolved then (ds, none, [])
  else if ds.messageSuccessfullySent then (ds, none, [])
  else
    ({ ds with isResolved := true, registered := false, timeoutArmed := false },
     some (Settle.rejectedTimeout ready), [NetworkStatus.error])

/-- Source `checkAndSend`: skip entirely if `messageSent`; if the socket is `OPEN`,
set `messageSent`, build the request frame (fresh uuid, command kind,
project path, prompt, model, session id, images) and transmit it, then set
`messageSuccessfullySent` and `clearTimeout(sendTimeout)`; if `CONNECTING`,
schedule a retry in 50 ms (the retry appears as a later event); otherwise
`unregister()` and `safeReject` with a connection-failed error. Returns the
new state, any settle, the number of frames transmitted, and `setStatus`
calls. -/
def checkAndSend (ready : ReadyState) (ds : DispatchState) :
    DispatchState × Option Settle × Nat × List NetworkStatus :=
  if ds.messageSent then (ds, none, 0, [])
  else
    match ready with
    | ReadyState.opened =>
        let ds1 := { ds with messageSent := true }
        let ds2 :=
          if ds1.messageSuccessfullySent then ds1
          else { ds1 with messageSuccessfullySent := true, timeoutArmed := false }
        (ds2, none, 1, [])
    | ReadyState.connecting => (ds, none, 0, [])
    | r =>
        let ds1 := { ds with registered := false }
        let q := safeReject (Settle.rejectedConnFailed r) ds1
        (q.1, q.2.1, 0, q.2.2)

/-- One asynchronous callback firing during a dispatch call: an inbound
frame routed to the tab's handlers, the `sendTimeout` firing, the socket's
`open` / `error` / `close` events, or one invocation of the 50 ms
`checkAndSend` polling retry. Events that read `ws.readyState` carry the
value they observe. -/
inductive DispatchEvent
  | frame (f : ServerFrame)
  | timeoutFired (ready : ReadyState)
  | wsOpen (ready : ReadyState)
  | wsError
  | wsClose (code : Nat)
  | pollCheck (ready : ReadyState)

/-- One event-loop turn of the dispatch call. A `frame` event reaches the
handler only while it is registered; the socket `open` listener does
`setStatus('connected'); checkAndSend()`; the socket `error` listener does
`setStatus('error')` and, if not resolved, unregisters and `safeReject`s;
the socket `close` listener only calls `setStatus` (`'error'` for abnormal
codes, `'disconnected'` for 1000/1001). -/
def step (ds : DispatchState) (e : DispatchEvent) : DispatchState × StepOut :=
  match e with
  | DispatchEvent.frame f =>
      if ds.registered then
        let r := messageHandler f ds
        (r.1, { settle := r.2.1, sends := 0, statusCalls := r.2.2 })
      else (ds, { settle := none, sends := 0, statusCalls := [] })
  | DispatchEvent.timeoutFired ready =>
      let r := sendTimeoutFire ready ds
      (r.1, { settle := r.2.1, sends := 0, statusCalls := r.2.2 })
  | DispatchEvent.wsOpen ready =>
      let r := checkAndSend ready ds
      (r.1, { settle := r.2.1, sends := r.2.2.1,
              statusCalls := NetworkStatus.connected :: r.2.2.2 })
  | DispatchEvent.wsError =>
      if ds.isResolved then
        (ds, { settle := none, sends := 0, statusCalls := [NetworkStatus.error] })
      else
        let ds1 := { ds with registered := false }
        let r := safeReject Settle.rejectedWsError ds1
        (r.1, { settle := r.2.1, sends := 0, statusCalls := NetworkStatus.error :: r.2.2 })
  | DispatchEvent.wsClose code =>
      if code ≠ 1000 ∧ code ≠ 1001 then
        (ds, { settle := none, sends := 0, statusCalls := [NetworkStatus.error] })
      else
        (ds, { settle := none, sends := 0, statusCalls := [NetworkStatus.disconnected] })
  | DispatchEvent.pollCheck ready =>
      let r := checkAndSend ready ds
      (r.1, { settle := r.2.1, sends := r.2.2.1, statusCalls := r.2.2.2 })

/-- The dispatch call's state once `handleStreamingCommand` has finished its
synchronous setup (timeout armed, handler registered, nothing sent or
resolved yet). -/
def initDispatch : DispatchState :=
  { isResolved := false
    messageSuccessfullySent := false
    messageSent := false
    registered := true
    timeoutArmed := true }

/-- Fold a sequence of events over a dispatch state, totalling the number of
settlements (resolutions plus rejections) and the number of request frames
transmitted. -/
def runEvents (ds : DispatchState) : List DispatchEvent → DispatchState × Nat × Nat
  | [] => (ds, 0, 0)
  | e :: rest =>
      let p := step ds e
      let q := runEvents p.1 rest
      (q.1, (if p.2.settle.isSome then 1 else 0) + q.2.1, p.2.sends + q.2.2)

/-- Apply a list of `setStatus` calls to a `NetworkStatusManager` state
(the timestamps of the calls are irrelevant to the resulting status). -/
def applyStatusCalls (calls : List NetworkStatus) (s : NSMState) : NSMState :=
  calls.foldl (fun st c => (setStatus 0 c st).1) s

/-- Spec-side definition (for comparison with the capped buffer): the
uncapped log of effective status transitions of a `setStatus` call
sequence, starting from current status `cur` — one `(status, timestamp)`
entry per call that actually changes the status. -/
def specTransitionLog (cur : NetworkStatus) : List (Nat × NetworkStatus) → List HistEntry
  | [] => []
  | (t, v) :: rest => if cur = v then specTransitionLog cur rest
                      else (v, t) :: specTransitionLog v rest

/-- The dispatch call's state after a sequence of events from setup. -/
def dispatchAfter (events : List DispatchEvent) : DispatchState :=
  (runEvents initDispatch events).1

/-- Concrete example state for the heap model: one empty history array at
reference 0, next allocation at 1. -/
def exHeapState : NSMHeapState :=
  { currentStatus := NetworkStatus.disconnected
    listeners := []
    historyRef := 0
    nextRef := 1
    store := fun _ => [] }

/-- Concrete example global state: no sessions, no reconnect attempts. -/
def exGlobal : WsGlobalState :=
  { sessions := fun _ => none
    reconnectAttempts := fun _ => none }

/-- Concrete example session: stale, with handler 7 registered. -/
def exStaleSession : WSSession :=
  { id := "s"
    wsState := ReadyState.closed
    handlers := [7]
    isConnected := false
    isStale := true }

/-- Concrete example global state holding `exStaleSession` for tab `"t1"`. -/
def exGlobalWithStale : WsGlobalState :=
  { sessions := fun q => if q = "t1" then some exStaleSession else none
    reconnectAttempts := fun _ => none }

/-- Concrete dispatch state in which the request frame has been sent. -/
def exSentState : DispatchState :=
  { isResolved := false
    messageSuccessfullySent := true
    messageSent := true
    registered := true
    timeoutArmed := false }

/-! ## Theorems -/

theorem runSetStatus_nil (s : NSMState) : runSetStatus [] s = s := rfl

theorem runSetStatus_cons (t : Nat) (v : NetworkStatus) (rest : List (Nat × NetworkStatus))
    (s : NSMState) : runSetStatus ((t, v) :: rest) s = runSetStatus rest (setStatus t v s).1 := rfl

/-- C7: calling `setStatus` with a value equal to the current status leaves
the state (current status, subscribers, history) unchanged and notifies no
subscriber; consequently two consecutive `setStatus` calls with the same
value notify each subscriber at most once. -/
theorem setStatus_noop_on_equal (s : NSMState) (v : NetworkStatus) (t1 t2 : Nat) :
    (s.currentStatus = v → setStatus t1 v s = (s, [])) ∧
    (s.listeners.Nodup → ∀ l : Nat,
      (((setStatus t1 v s).2 ++ (setStatus t2 v (setStatus t1 v s).1).2).countP
        (fun p => p.1 == l)) ≤ 1) := by
  constructor
  · intro h
    simp [setStatus, h]
  · intro hnd l
    by_cases h : s.currentStatus = v
    · simp [setStatus, h]
    · have h2 : (setStatus t2 v (setStatus t1 v s).1).2 = [] := by
        simp [setStatus, h]
      have h1 : (setStatus t1 v s).2 = s.listeners.map (fun x => (x, v)) := by
        simp [setStatus, h]
      rw [h2, List.append_nil, h1, List.countP_map]
      have hc : ((fun p : Nat × NetworkStatus => p.1 == l) ∘ (fun x => (x, v))) = (· == l) := rfl
      rw [hc]
      exact List.nodup_iff_count_le_one.1 hnd l

/-- Witness for C7 at a concrete state. -/
theorem setStatus_noop_witness :
    (setStatus 0 NetworkStatus.connected ⟨NetworkStatus.connected, [5], []⟩ =
      (⟨NetworkStatus.connected, [5], []⟩, [])) ∧
    (((setStatus 0 NetworkStatus.connected ⟨NetworkStatus.connected, [5], []⟩).2 ++
      (setStatus 1 NetworkStatus.connected
        (setStatus 0 NetworkStatus.connected ⟨NetworkStatus.connected, [5], []⟩).1).2).countP
        (fun p => p.1 == 5)) ≤ 1 :=
  ⟨(setStatus_noop_on_equal ⟨NetworkStatus.connected, [5], []⟩ NetworkStatus.connected 0 1).1 rfl,
   (setStatus_noop_on_equal ⟨NetworkStatus.connected, [5], []⟩ NetworkStatus.connected 0 1).2
     (by decide) 5⟩

theorem addToHistory_drop (L : List HistEntry) (v : NetworkStatus) (t : Nat) :
    addToHistory v t (L.drop (L.length - maxHistoryLength)) =
      (L ++ [(v, t)]).drop ((L ++ [(v, t)]).length - maxHistoryLength) := by
  have hlen : (L.drop (L.length - maxHistoryLength)).length =
      L.length - (L.length - maxHistoryLength) := List.length_drop _ _
  by_cases hL : L.length ≤ maxHistoryLength
  · have h0 : L.length - maxHistoryLength = 0 := by omega
    rw [h0, List.drop_zero]
    unfold addToHistory
    simp only [List.length_append, List.length_cons, List.length_nil]
    by_cases h1 : L.length + 1 > maxHistoryLength
    · have : L.length = maxHistoryLength := by omega
      simp [this]
    · have : L.length + 1 - maxHistoryLength = 0 := by omega
      simp [h1, this]
  · have hge : maxHistoryLength ≤ L.length := by omega
    have hpos : 0 < maxHistoryLength := by decide
    have hdl : (L.drop (L.length - maxHistoryLength)).length = maxHistoryLength := by
      rw [hlen]; omega
    have key : ∀ (A B : List HistEntry) (k : Nat), k ≤ A.length →
        (A ++ B).drop k = A.drop k ++ B := by
      intro A B k hk
      rw [List.drop_append_eq_append_drop]
      have h0 : k - A.length = 0 := by omega
      rw [h0, List.drop_zero]
    simp only [addToHistory]
    have hc : (L.drop (L.length - maxHistoryLength) ++ [(v, t)]).length > maxHistoryLength := by
      simp only [List.length_append, List.length_singleton, hdl]
      omega
    rw [if_pos hc]
    have hL1 : (L.drop (L.length - maxHistoryLength) ++ [(v, t)]).length - maxHistoryLength = 1 := by
      simp only [List.length_append, List.length_singleton, hdl]
      omega
    rw [hL1]
    rw [key _ _ 1 (by rw [hdl]; omega), List.drop_drop]
    rw [key _ _ ((L ++ [(v, t)]).length - maxHistoryLength)
        (by simp only [List.length_append, List.length_singleton]; omega)]
    have hidx : L.length - maxHistoryLength + 1 = (L ++ [(v, t)]).length - maxHistoryLength := by
      simp only [List.length_append, List.length_singleton]
      omega
    rw [hidx]

theorem runSetStatus_statusHistory (ops : List (Nat × NetworkStatus)) :
    ∀ (s : NSMState) (L : List HistEntry),
      s.statusHistory = L.drop (L.length - maxHistoryLength) →
      (runSetStatus ops s).statusHistory =
        (L ++ specTransitionLog s.currentStatus ops).drop
          ((L ++ specTransitionLog s.currentStatus ops).length - maxHistoryLength) := by
  induction ops with
  | nil =>
      intro s L hs
      simp [runSetStatus_nil, specTransitionLog, hs]
  | cons op rest ih =>
      intro s L hs
      obtain ⟨t, v⟩ := op
      rw [runSetStatus_cons]
      by_cases h : s.currentStatus = v
      · have hstep : (setStatus t v s).1 = s := by simp [setStatus, h]
        rw [hstep]
        simp only [specTransitionLog, if_pos h]
        exact ih s L hs
      · have hcur : (setStatus t v s).1.currentStatus = v := by simp [setStatus, h]
        have hhist : (setStatus t v s).1.statusHistory =
            (L ++ [(v, t)]).drop ((L ++ [(v, t)]).length - maxHistoryLength) := by
          simp only [setStatus, if_neg h]
          rw [hs]
          exact addToHistory_drop L v t
        have := ih (setStatus t v s).1 (L ++ [(v, t)]) hhist
        rw [this, hcur]
        simp only [specTransitionLog, if_neg h]
        rw [List.append_assoc]
        simp

/-- C8: the status history of the `NetworkStatusManager` is exactly the
last-50-entries suffix of the uncapped log of effective transitions — each
effective transition appends one (status, timestamp) entry and, past
capacity, the oldest entries are evicted — so its length never exceeds 50
for any sequence of `setStatus` calls. -/
theorem statusHistory_capped (ops : List (Nat × NetworkStatus)) :
    (runSetStatus ops initNSM).statusHistory =
      (specTransitionLog NetworkStatus.disconnected ops).drop
        ((specTransitionLog NetworkStatus.disconnected ops).length - maxHistoryLength) ∧
    (runSetStatus ops initNSM).statusHistory.length ≤ maxHistoryLength := by
  have h := runSetStatus_statusHistory ops initNSM [] (by simp [initNSM])
  have hcur : initNSM.currentStatus = NetworkStatus.disconnected := rfl
  rw [hcur] at h
  simp only [List.nil_append] at h
  refine ⟨h, ?_⟩
  rw [h, List.length_drop]
  omega

theorem copyArray_eq (l : List HistEntry) : copyArray l = l := by
  induction l with
  | nil => rfl
  | cons e rest ih => simp [copyArray, ih]

/-- C10: `getHistory` hands back a fresh copy of the status history: its
contents equal the internal history, and overwriting the returned array
leaves the internal history array, the rest of the manager's state, and
the result of a later `getHistory` call unchanged. -/
theorem getHistory_returns_fresh_copy (s : NSMHeapState) (c : List HistEntry)
    (hfresh : s.historyRef < s.nextRef) :
    ((getHistory s).2.store (getHistory s).1 = s.store s.historyRef) ∧
    ((writeArray (getHistory s).1 c (getHistory s).2).store s.historyRef =
      s.store s.historyRef) ∧
    ((writeArray (getHistory s).1 c (getHistory s).2).currentStatus = s.currentStatus) ∧
    ((writeArray (getHistory s).1 c (getHistory s).2).listeners = s.listeners) ∧
    ((writeArray (getHistory s).1 c (getHistory s).2).historyRef = s.historyRef) ∧
    ((getHistory (writeArray (getHistory s).1 c (getHistory s).2)).2.store
      (getHistory (writeArray (getHistory s).1 c (getHistory s).2)).1 =
      s.store s.historyRef) := by
  have hne : s.historyRef ≠ s.nextRef := Nat.ne_of_lt hfresh
  have hne1 : s.historyRef ≠ s.nextRef + 1 := by omega
  have hne2 : s.nextRef + 1 ≠ s.nextRef := by omega
  simp [getHistory, writeArray, copyArray_eq, hne, hne1, hne2]

/-- Witness for C10 at a concrete heap state. -/
theorem getHistory_fresh_copy_witness :
    exHeapState.historyRef < exHeapState.nextRef ∧
    ((writeArray (getHistory exHeapState).1 [(NetworkStatus.error, 7)]
        (getHistory exHeapState).2).store exHeapState.historyRef =
      exHeapState.store exHeapState.historyRef) :=
  ⟨by decide,
   (getHistory_returns_fresh_copy exHeapState [(NetworkStatus.error, 7)] (by decide)).2.1⟩

theorem forEachHandlers_take (throws : Nat → Bool) (l : List Nat) :
    forEachHandlers throws l = l.take (invokedCount throws l) := by
  induction l with
  | nil => rfl
  | cons h rest ih =>
      by_cases ht : throws h = true
      · simp [forEachHandlers, invokedCount, ht]
      · simp [forEachHandlers, invokedCount, ht, ih]

theorem forEachHandlers_of_none_throws (throws : Nat → Bool) (l : List Nat)
    (h : ∀ x ∈ l, throws x = false) : forEachHandlers throws l = l := by
  induction l with
  | nil => rfl
  | cons a rest ih =>
      have ha : throws a = false := h a (List.mem_cons_self a rest)
      simp [forEachHandlers, ha]
      exact ih fun x hx => h x (List.mem_cons_of_mem a hx)

/-- C1 counterexample: with two registered listeners where the first throws
on the delivered frame, the second listener is not invoked — the exception
does prevent the remaining listeners from running. -/
theorem listener_exception_stops_routing_cex :
    7 ∈ (⟨"s1", ReadyState.opened, [3, 7], true, false⟩ : WSSession).handlers ∧
    (onMessageEvent ⟨"s1", ReadyState.opened, [3, 7], true, false⟩ (some ())
        (fun h => h == 3)).invoked = [3] ∧
    7 ∉ (onMessageEvent ⟨"s1", ReadyState.opened, [3, 7], true, false⟩ (some ())
        (fun h => h == 3)).invoked := by
  decide

/-- C1 amended: when a frame's payload parses as JSON, the registered
listeners are invoked in registration order up to and including the first
listener that throws (listeners registered after it are not invoked for
that frame); the exception is caught by the listener's try/catch, so it
neither crashes frame routing nor changes the connection's state; when no
listener throws, every listener is invoked in registration order. -/
theorem message_listeners_up_to_first_throw (sess : WSSession) (parsed : Option Unit)
    (throws : Nat → Bool) :
    ((onMessageEvent sess parsed throws).crashed = false) ∧
    ((onMessageEvent sess parsed throws).session = sess) ∧
    (parsed.isSome = true →
      (onMessageEvent sess parsed throws).invoked =
        sess.handlers.take (invokedCount throws sess.handlers)) ∧
    (parsed.isSome = true → (∀ h ∈ sess.handlers, throws h = false) →
      (onMessageEvent sess parsed throws).invoked = sess.handlers) := by
  cases parsed with
  | none => simp [onMessageEvent]
  | some u =>
      refine ⟨by simp [onMessageEvent], by simp [onMessageEvent], ?_, ?_⟩
      · intro _
        simp [onMessageEvent, forEachHandlers_take]
      · intro _ hnone
        simp [onMessageEvent, forEachHandlers_of_none_throws throws sess.handlers hnone]

/-- Witness for the amended C1 at a concrete session with two listeners,
neither of which throws. -/
theorem message_listeners_witness :
    ((some () : Option Unit).isSome = true) ∧
    (onMessageEvent ⟨"s1", ReadyState.opened, [3, 7], true, false⟩ (some ())
        (fun _ => false)).invoked = [3, 7] :=
  ⟨rfl,
   (message_listeners_up_to_first_throw ⟨"s1", ReadyState.opened, [3, 7], true, false⟩
      (some ()) (fun _ => false)).2.2.2 rfl (by decide)⟩

/-- C2 counterexample: a stale session for tab `"t1"` carries handler 7; an
abnormal close schedules a reconnect, and when the scheduled reconnect
fires, the replacement session stored for `"t1"` has an empty handler set —
handler 7 is not present on the replacement. -/
theorem reconnect_drops_handlers_cex :
    7 ∈ exStaleSession.handlers ∧
    (onCloseEvent exGlobalWithStale "t1" 1006).2 = some 1000 ∧
    (reconnectFire (onCloseEvent exGlobalWithStale "t1" 1006).1 "t1" (some "s")).sessions "t1" =
      some (createSession "t1" (some "s")) ∧
    7 ∉ (createSession "t1" (some "s")).handlers := by
  refine ⟨by decide, by decide, ?_, by decide⟩
  rfl

/-- C2 amended: when `getOrCreateSession` replaces a stale or closed
connection, every listener of the old connection is present (in order) on
the replacement, which is stored in the registry; but the replacement
created by the automatic reconnect scheduled after an abnormal close is a
fresh session with an empty handler set — listeners are not migrated on
that path. -/
theorem handlers_migrate_only_on_getOrCreate (g : WsGlobalState) (tabId : String)
    (sid : Option String) (old : WSSession) :
    (g.sessions tabId = some old → (old.isStale = true ∨ old.wsState = ReadyState.closed) →
      ((getOrCreateSession g tabId sid).1.handlers = old.handlers ∧
       (getOrCreateSession g tabId sid).2.sessions tabId =
         some (getOrCreateSession g tabId sid).1)) ∧
    ((reconnectFire g tabId sid).sessions tabId = some (createSession tabId sid) ∧
     (createSession tabId sid).handlers = []) := by
  constructor
  · intro hold hstale
    have hcond : (old.isStale ∨ old.wsState = ReadyState.closed) := by
      rcases hstale with h | h
      · exact Or.inl (by simp [h])
      · exact Or.inr h
    simp [getOrCreateSession, hold, if_pos hcond, updateMap]
  · constructor
    · simp [reconnectFire, updateMap]
    · rfl

/-- Witness for the amended C2 at a concrete registry holding a stale
session with one handler. -/
theorem handlers_migrate_witness :
    exGlobalWithStale.sessions "t1" = some exStaleSession ∧
    (exStaleSession.isStale = true ∨ exStaleSession.wsState = ReadyState.closed) ∧
    (getOrCreateSession exGlobalWithStale "t1" (some "s")).1.handlers = [7] :=
  ⟨rfl, Or.inl rfl,
   by
    have h := (handlers_migrate_only_on_getOrCreate exGlobalWithStale "t1" (some "s")
      exStaleSession).1 rfl (Or.inl rfl)
    rw [h.1]
    rfl⟩

/-- C6: after a close event, a close code of 1000 or 1001 schedules no
reconnect; an abnormal code schedules a reconnect with delay
`RECONNECT_DELAY * n` (1000 ms times the attempt number) and stores attempt
number `n = previous + 1` while `n ≤ MAX_RECONNECT_ATTEMPTS = 3`; once the
counter would exceed 3, nothing is scheduled and the state is unchanged. -/
theorem reconnect_schedule_policy (g : WsGlobalState) (tabId : String) (code : Nat) :
    ((code = 1000 ∨ code = 1001) → onCloseEvent g tabId code = (g, none)) ∧
    (code ≠ 1000 → code ≠ 1001 →
      (((g.reconnectAttempts tabId).getD 0 + 1 ≤ MAX_RECONNECT_ATTEMPTS →
        (onCloseEvent g tabId code).2 =
          some (RECONNECT_DELAY * ((g.reconnectAttempts tabId).getD 0 + 1)) ∧
        (onCloseEvent g tabId code).1.reconnectAttempts tabId =
          some ((g.reconnectAttempts tabId).getD 0 + 1)) ∧
      ((g.reconnectAttempts tabId).getD 0 + 1 > MAX_RECONNECT_ATTEMPTS →
        onCloseEvent g tabId code = (g, none)))) := by
  constructor
  · intro h
    have hc : ¬(code ≠ 1000 ∧ code ≠ 1001) := by
      rcases h with h | h <;> simp [h]
    simp [onCloseEvent, hc]
  · intro h1 h2
    have hc : (code ≠ 1000 ∧ code ≠ 1001) := ⟨h1, h2⟩
    constructor
    · intro hle
      have hgt : ¬((g.reconnectAttempts tabId).getD 0 + 1 > MAX_RECONNECT_ATTEMPTS) := by
        omega
      simp [onCloseEvent, hc, attemptReconnect, hgt, updateMap]
    · intro hgt
      simp [onCloseEvent, hc, attemptReconnect, hgt]

/-- Witness for C6: first abnormal close on a fresh tab schedules attempt 1
after 1000 ms. -/
theorem reconnect_schedule_witness :
    ((1006 : Nat) ≠ 1000) ∧ ((1006 : Nat) ≠ 1001) ∧
    (onCloseEvent exGlobal "t1" 1006).2 = some 1000 ∧
    (onCloseEvent exGlobal "t1" 1006).1.reconnectAttempts "t1" = some 1 :=
  ⟨by decide, by decide,
   by
    have h := ((reconnect_schedule_policy exGlobal "t1" 1006).2 (by decide) (by decide)).1
      (by decide)
    exact ⟨h.1, h.2⟩⟩

theorem step_resolved_frozen (ds : DispatchState) (e : DispatchEvent)
    (h : ds.isResolved = true) :
    (step ds e).1.isResolved = true ∧ (step ds e).2.settle = none := by
  cases e with
  | frame f =>
      cases f <;> simp [step, messageHandler, safeResolve, safeReject, h] <;>
        split_ifs <;> simp_all
  | timeoutFired r => simp [step, sendTimeoutFire, h]
  | wsOpen r =>
      cases r <;> simp [step, checkAndSend, safeReject, h] <;> split_ifs <;> simp_all
  | wsError => simp [step, safeReject, h]
  | wsClose c => simp [step, h]; split_ifs <;> simp [h]
  | pollCheck r =>
      cases r <;> simp [step, checkAndSend, safeReject, h] <;> split_ifs <;> simp_all

theorem step_settle_resolves (ds : DispatchState) (e : DispatchEvent)
    (h : (step ds e).2.settle.isSome = true) : (step ds e).1.isResolved = true := by
  cases e with
  | frame f =>
      cases f <;> simp [step, messageHandler, safeResolve, safeReject] at h ⊢ <;>
        split_ifs at h ⊢ <;> simp_all
  | timeoutFired r =>
      simp [step, sendTimeoutFire] at h ⊢ <;> split_ifs at h ⊢ <;> simp_all
  | wsOpen r =>
      cases r <;> simp [step, checkAndSend, safeReject] at h ⊢ <;>
        split_ifs at h ⊢ <;> simp_all
  | wsError =>
      simp [step, safeReject] at h ⊢ <;> split_ifs at h ⊢ <;> simp_all
  | wsClose c =>
      simp [step] at h; split_ifs at h <;> simp_all
  | pollCheck r =>
      cases r <;> simp [step, checkAndSend, safeReject] at h ⊢ <;>
        split_ifs at h ⊢ <;> simp_all

theorem step_sent_frozen (ds : DispatchState) (e : DispatchEvent)
    (h : ds.messageSent = true) :
    (step ds e).1.messageSent = true ∧ (step ds e).2.sends = 0 := by
  cases e with
  | frame f =>
      cases f <;> simp [step, messageHandler, safeResolve, safeReject, h] <;>
        split_ifs <;> simp_all
  | timeoutFired r => simp [step, sendTimeoutFire, h]; split_ifs <;> simp_all
  | wsOpen r =>
      cases r <;> simp [step, checkAndSend, safeReject, h] <;> split_ifs <;> simp_all
  | wsError => simp [step, safeReject, h]; split_ifs <;> simp_all
  | wsClose c => simp [step, h]; split_ifs <;> simp [h]
  | pollCheck r =>
      cases r <;> simp [step, checkAndSend, safeReject, h] <;> split_ifs <;> simp_all

theorem step_send_marks_sent (ds : DispatchState) (e : DispatchEvent) :
    (step ds e).2.sends ≤ 1 ∧
    ((step ds e).2.sends ≠ 0 → (step ds e).1.messageSent = true) := by
  cases e with
  | frame f => simp only [step]; split_ifs <;> simp
  | timeoutFired r => simp [step]
  | wsOpen r =>
      cases r <;> simp [step, checkAndSend, safeReject] <;> split_ifs <;> simp_all
  | wsError => simp only [step]; split_ifs <;> simp
  | wsClose c => simp only [step]; split_ifs <;> simp
  | pollCheck r =>
      cases r <;> simp [step, checkAndSend, safeReject] <;> split_ifs <;> simp_all

theorem runEvents_settles_zero (events : List DispatchEvent) :
    ∀ ds : DispatchState, ds.isResolved = true → (runEvents ds events).2.1 = 0 := by
  induction events with
  | nil => intro ds _; rfl
  | cons e rest ih =>
      intro ds h
      have hs := step_resolved_frozen ds e h
      simp [runEvents, hs.2, ih _ hs.1]

theorem runEvents_settles_le_one (events : List DispatchEvent) :
    ∀ ds : DispatchState, (runEvents ds events).2.1 ≤ 1 := by
  induction events with
  | nil => intro ds; simp [runEvents]
  | cons e rest ih =>
      intro ds
      by_cases hs : (step ds e).2.settle.isSome = true
      · have hres := step_settle_resolves ds e hs
        have hz := runEvents_settles_zero rest _ hres
        simp [runEvents, hs, hz]
      · have hnone : (step ds e).2.settle = none := by
          cases hcase : (step ds e).2.settle <;> simp_all
        simp [runEvents, hnone]
        exact ih _

theorem runEvents_sends_zero (events : List DispatchEvent) :
    ∀ ds : DispatchState, ds.messageSent = true → (runEvents ds events).2.2 = 0 := by
  induction events with
  | nil => intro ds _; rfl
  | cons e rest ih =>
      intro ds h
      have hs := step_sent_frozen ds e h
      simp [runEvents, hs.2, ih _ hs.1]

theorem runEvents_sends_le_one (events : List DispatchEvent) :
    ∀ ds : DispatchState, (runEvents ds events).2.2 ≤ 1 := by
  induction events with
  | nil => intro ds; simp [runEvents]
  | cons e rest ih =>
      intro ds
      by_cases hz : (step ds e).2.sends = 0
      · simp [runEvents, hz]
        exact ih _
      · have hle := (step_send_marks_sent ds e).1
        have hone : (step ds e).2.sends = 1 := by omega
        have hsent := (step_send_marks_sent ds e).2 hz
        have hrest := runEvents_sends_zero rest _ hsent
        simp [runEvents, hone, hrest]

/-- C4: a dispatch call settles (resolves or rejects) at most once over any
sequence of inbound frames, timeout firings, socket error/close events and
send-path invocations; and once it is settled, any further events settle it
zero more times. -/
theorem dispatch_settles_at_most_once (events : List DispatchEvent) :
    (runEvents initDispatch events).2.1 ≤ 1 ∧
    ((runEvents initDispatch events).1.isResolved = true →
      ∀ more : List DispatchEvent,
        (runEvents (runEvents initDispatch events).1 more).2.1 = 0) :=
  ⟨runEvents_settles_le_one events initDispatch,
   fun h more => runEvents_settles_zero more _ h⟩

/-- Witness for C4: a successful completion frame settles the call, and a
duplicated completion frame afterwards settles it zero more times. -/
theorem dispatch_settles_witness :
    (runEvents initDispatch
        [DispatchEvent.frame (ServerFrame.completion true none)]).1.isResolved = true ∧
    (runEvents
        (runEvents initDispatch [DispatchEvent.frame (ServerFrame.completion true none)]).1
        [DispatchEvent.frame (ServerFrame.completion true none)]).2.1 = 0 :=
  ⟨by decide,
   (dispatch_settles_at_most_once [DispatchEvent.frame (ServerFrame.completion true none)]).2
     (by decide) [DispatchEvent.frame (ServerFrame.completion true none)]⟩

/-- C3: at most one request frame is ever transmitted per dispatch call,
over any sequence of open events and 50 ms polling retries with arbitrary
observed socket states; and once the frame is marked sent, a later
invocation of the send path transmits nothing and changes nothing, whatever
state the socket reports. -/
theorem dispatch_sends_at_most_once (events : List DispatchEvent) (ds : DispatchState)
    (ready : ReadyState) :
    (runEvents initDispatch events).2.2 ≤ 1 ∧
    (ds.messageSent = true → checkAndSend ready ds = (ds, none, 0, [])) :=
  ⟨runEvents_sends_le_one events initDispatch,
   fun h => by simp [checkAndSend, h]⟩

/-- Witness for C3: the send path on a sent-marked state with a closed
socket transmits nothing. -/
theorem dispatch_sends_witness :
    exSentState.messageSent = true ∧
    checkAndSend ReadyState.closed exSentState = (exSentState, none, 0, []) :=
  ⟨rfl, (dispatch_sends_at_most_once [] exSentState ReadyState.closed).2 rfl⟩

/-- C5: if the send timeout fires while the frame is unsent and the call
unsettled, the call rejects with a timeout error carrying the socket's
state and the listener is unregistered; when the frame has been sent, a
firing timeout is a no-op; and the successful send itself disarms the
timeout, so a timeout firing after the send never rejects the call. -/
theorem sendTimeout_bounds_send_phase (ds : DispatchState) (ready r2 : ReadyState) :
    (ds.isResolved = false → ds.messageSuccessfullySent = false →
      (sendTimeoutFire ready ds).2.1 = some (Settle.rejectedTimeout ready) ∧
      (sendTimeoutFire ready ds).1.registered = false ∧
      (sendTimeoutFire ready ds).1.isResolved = true ∧
      (sendTimeoutFire ready ds).2.2 = [NetworkStatus.error]) ∧
    (ds.messageSuccessfullySent = true → sendTimeoutFire ready ds = (ds, none, [])) ∧
    (ds.messageSent = false → ds.messageSuccessfullySent = false →
      (checkAndSend ReadyState.opened ds).2.2.1 = 1 ∧
      (checkAndSend ReadyState.opened ds).1.messageSuccessfullySent = true ∧
      (checkAndSend ReadyState.opened ds).1.timeoutArmed = false ∧
      (sendTimeoutFire r2 (checkAndSend ReadyState.opened ds).1).2.1 = none) := by
  refine ⟨?_, ?_, ?_⟩
  · intro h1 h2
    simp [sendTimeoutFire, h1, h2]
  · intro h
    unfold sendTimeoutFire
    split_ifs <;> simp_all
  · intro h1 h2
    simp only [checkAndSend, h1, if_false, Bool.false_eq_true]
    simp [h2, sendTimeoutFire]

/-- Witness for C5 at the initial dispatch state: the timeout rejects when
nothing was sent, and is inert after a successful send. -/
theorem sendTimeout_witness :
    initDispatch.isResolved = false ∧
    initDispatch.messageSuccessfullySent = false ∧
    initDispatch.messageSent = false ∧
    (sendTimeoutFire ReadyState.connecting initDispatch).2.1 =
      some (Settle.rejectedTimeout ReadyState.connecting) ∧
    (sendTimeoutFire ReadyState.connecting
      (checkAndSend ReadyState.opened initDispatch).1).2.1 = none :=
  ⟨rfl, rfl, rfl,
   ((sendTimeout_bounds_send_phase initDispatch ReadyState.connecting
       ReadyState.connecting).1 rfl rfl).1,
   ((sendTimeout_bounds_send_phase initDispatch ReadyState.opened
       ReadyState.connecting).2.2 rfl rfl).2.2.2⟩

theorem step_registered_not_resolved (ds : DispatchState) (e : DispatchEvent)
    (h : ds.registered = true → ds.isResolved = false) :
    (step ds e).1.registered = true → (step ds e).1.isResolved = false := by
  cases e with
  | frame f =>
      cases f <;> simp [step, messageHandler, safeResolve, safeReject] <;>
        split_ifs <;> simp_all
  | timeoutFired r =>
      simp [step, sendTimeoutFire]; split_ifs <;> simp_all
  | wsOpen r =>
      obtain ⟨a, b, c, d, t⟩ := ds
      revert h
      cases a <;> cases b <;> cases c <;> cases d <;> cases t <;> cases r <;> decide
  | wsError =>
      simp [step, safeReject]; split_ifs <;> simp_all
  | wsClose c =>
      simp [step]; split_ifs <;> simp_all
  | pollCheck r =>
      obtain ⟨a, b, c, d, t⟩ := ds
      revert h
      cases a <;> cases b <;> cases c <;> cases d <;> cases t <;> cases r <;> decide

theorem runEvents_registered_not_resolved (events : List DispatchEvent) :
    ∀ ds : DispatchState, (ds.registered = true → ds.isResolved = false) →
      ((runEvents ds events).1.registered = true →
        (runEvents ds events).1.isResolved = false) := by
  induction events with
  | nil => intro ds h; exact h
  | cons e rest ih =>
      intro ds h
      have hstep := step_registered_not_resolved ds e h
      simpa [runEvents] using ih (step ds e).1 hstep

theorem dispatchAfter_registered_not_resolved (events : List DispatchEvent)
    (h : (dispatchAfter events).registered = true) :
    (dispatchAfter events).isResolved = false :=
  runEvents_registered_not_resolved events initDispatch (fun _ => rfl) h

theorem setStatus_fst_currentStatus (t : Nat) (v : NetworkStatus) (s : NSMState) :
    ((setStatus t v s).1).currentStatus = v := by
  by_cases h : s.currentStatus = v <;> simp [setStatus, h]

/-- C9: while the dispatch call's listener is registered, every delivered
frame first invokes `setStatus('connected')` before any kind-specific
handling — so an output frame leaves Network Status at `connected` — and a
failure completion frame or an error frame invokes `setStatus('connected')`
and then immediately `setStatus('error')` through the rejection path,
leaving Network Status at `error`. -/
theorem handler_sets_connected_first (events : List DispatchEvent) (f : ServerFrame)
    (ns : NSMState) (hreg : (dispatchAfter events).registered = true) :
    ((step (dispatchAfter events) (DispatchEvent.frame f)).2.statusCalls.head? =
      some NetworkStatus.connected) ∧
    (∀ ok : Bool, f = ServerFrame.output ok →
      (step (dispatchAfter events) (DispatchEvent.frame f)).2.statusCalls =
        [NetworkStatus.connected] ∧
      (applyStatusCalls
        (step (dispatchAfter events) (DispatchEvent.frame f)).2.statusCalls ns).currentStatus =
        NetworkStatus.connected) ∧
    (∀ em : Option String, f = ServerFrame.completion false em →
      (step (dispatchAfter events) (DispatchEvent.frame f)).2.statusCalls =
        [NetworkStatus.connected, NetworkStatus.error] ∧
      (applyStatusCalls
        (step (dispatchAfter events) (DispatchEvent.frame f)).2.statusCalls ns).currentStatus =
        NetworkStatus.error) ∧
    (∀ em : Option String, f = ServerFrame.error em →
      (step (dispatchAfter events) (DispatchEvent.frame f)).2.statusCalls =
        [NetworkStatus.connected, NetworkStatus.error] ∧
      (applyStatusCalls
        (step (dispatchAfter events) (DispatchEvent.frame f)).2.statusCalls ns).currentStatus =
        NetworkStatus.error) := by
  have hres := dispatchAfter_registered_not_resolved events hreg
  refine ⟨?_, ?_, ?_, ?_⟩
  · cases f <;> simp [step, messageHandler, safeResolve, safeReject, hreg] <;>
      split_ifs <;> simp
  · intro ok hf
    subst hf
    simp [step, messageHandler, hreg, applyStatusCalls, setStatus_fst_currentStatus]
  · intro em hf
    subst hf
    simp [step, messageHandler, safeReject, hreg, hres, applyStatusCalls,
      setStatus_fst_currentStatus]
  · intro em hf
    subst hf
    simp [step, messageHandler, safeReject, hreg, hres, applyStatusCalls,
      setStatus_fst_currentStatus]

/-- Witness for C9: in the freshly set-up dispatch call, an output frame
produces exactly one `setStatus('connected')` call. -/
theorem handler_sets_connected_witness :
    (dispatchAfter []).registered = true ∧
    (step (dispatchAfter []) (DispatchEvent.frame (ServerFrame.output true))).2.statusCalls =
      [NetworkStatus.connected] :=
  ⟨rfl,
   ((handler_sets_connected_first [] (ServerFrame.output true) initNSM rfl).2.1 true rfl).1⟩
